import Mathlib

set_option maxRecDepth 100000

/-
  Verification development for the `autoscaler` repository.

  Shallow embedding of the planner (src/planner.py), the executor
  (src/executor.py) and the probe's replica counter (src/monitor.py).

  Modelling conventions:
  * Python floats are modelled as rationals (ℚ); the numeric literals of the
    source (1.4826, 1.10, 0.25, ...) are taken at their nominal decimal value.
  * Environment-variable configuration is fixed at the defaults hard-coded in
    the source (`os.getenv(name, default)` with no environment override).
  * One wall-clock sample `now` is used per consumed message: the planner's
    several `time.time()` calls inside a single loop iteration are modelled as
    returning the same value, matching the spec's atomic-decision model.
  * The oracle HTTP exchange is an input of the step: `OracleResp` is what
    `requests.post` + response parsing would produce if the call were made.
  * `random.random()` is the input `jitter`.
  * JSON payload fields that the planner converts (`float(...)`, `int(...)`)
    are modelled by `JVal`; a `null` field makes the conversion raise, which
    the outer `except` turns into an error record, as in the source.
-/

namespace Autoscaler

attribute [local semireducible] Rat.add Rat.mul Rat.sub Rat.inv Rat.ofScientific

/-! ### Configuration defaults (src/planner.py lines 13-30, src/executor.py line 4) -/

def COOLDOWN_SEC : ℚ := 20
def MIN_REPLICAS : ℤ := 2
def MAX_REPLICAS : ℤ := 10
def LLM_RPM : ℚ := 2
def LLM_HEARTBEAT_SEC : ℚ := 300
def LLM_BACKOFF_BASE_SEC : ℚ := 10
def LLM_BACKOFF_MAX_SEC : ℚ := 300
def HIST_WINDOWS : ℕ := 60
def WARMUP_WINDOWS : ℕ := 12
def LOW_NEED_N : ℕ := 3
def ALPHA_UP : ℚ := 8
def BETA_DOWN : ℚ := 11/10
def IDLE_HINT_MS : ℚ := 0
def EXEC_MAX_REPLICAS : ℕ := 5

def ALLOWED : List String := [("noop"), ("restart"), ("scale_up"), ("scale_down")]

/-! ### Small Python-like utilities -/

/-- Bounded append: `collections.deque(maxlen := m).append x` on a deque
holding `xs` (oldest first). -/
def pushBounded {α : Type} (m : ℕ) (xs : List α) (x : α) : List α :=
  let ys := xs ++ [x]
  ys.drop (ys.length - m)

/-- Insertion into a sorted list of rationals (used to model Python's sort
inside `statistics.median`; only the multiset matters for the median). -/
def insertSorted (x : ℚ) : List ℚ → List ℚ
  | [] => [x]
  | y :: ys => if x ≤ y then x :: y :: ys else y :: insertSorted x ys

def sortQ (xs : List ℚ) : List ℚ := xs.foldr insertSorted []

/-- `statistics.median`: middle element for odd length, mean of the two middle
elements for even length (callers never pass the empty list). -/
def median (xs : List ℚ) : ℚ :=
  let s := sortQ xs
  let n := s.length
  if n % 2 = 1 then s.getD (n / 2) 0
  else (s.getD (n / 2 - 1) 0 + s.getD (n / 2) 0) / 2

/-- Floor of a rational as an integer (used by the decimal formatter). -/
def qfloor (q : ℚ) : ℤ := Int.fdiv q.num (q.den : ℤ)

/-- One-decimal fixed-point rendering of a rational, modelling the Python
format specifier `:.1f` (ties rounded up rather than half-even; the tie case
is never hit by the claims). -/
def fmt1 (q : ℚ) : String :=
  let n : ℤ := qfloor (q * 10 + 1 / 2)
  let sgn := if n < 0 then ("-") else ("")
  let m := n.natAbs
  sgn ++ toString (m / 10) ++ ("." ) ++ toString (m % 10)

/-- Python `int(...)` truncation toward zero of a rational. -/
def ratTrunc (q : ℚ) : ℤ := Int.tdiv q.num (q.den : ℤ)

/-! ### Planner data model (src/planner.py) -/

/-- A JSON field value as far as the planner's conversions care: a number, or
`null` (on which `float` / `int` raise `TypeError`). -/
inductive JVal
  | num (q : ℚ)
  | null
deriving DecidableEq

/-- The fields of an `alerts` message that the planner reads.  A missing field
is `none` (Python `msg.get` with a default). -/
structure Msg where
  kind : Option String
  p95_ms : Option JVal
  replicas : Option JVal
deriving DecidableEq

/-- `float(msg.get ("p95_ms", 0))`: default 0, numeric passthrough, raise on
`null` (`none` result = exception). -/
def pyFloat? : Option JVal → Option ℚ
  | none => some 0
  | some (JVal.num q) => some q
  | some JVal.null => none

/-- `int(msg.get ("replicas", 1))`: default 1, truncation of a number, raise
on `null`. -/
def pyInt? : Option JVal → Option ℤ
  | none => some 1
  | some (JVal.num q) => some (ratTrunc q)
  | some JVal.null => none

structure Decision where
  action : String
  target : String
  reason : String
deriving DecidableEq

structure Telemetry where
  p95_ms : ℚ
  baseline_ms : ℚ
  sigma_ms : ℚ
  low_windows : List Bool
  replicas : ℤ
deriving DecidableEq

structure PlanEnvelope where
  ts : ℚ
  container : String
  decision : Decision
  telemetry : Telemetry
deriving DecidableEq

/-- Which `try`-protected conversion raised. -/
inductive PyErr
  | p95Conv
  | replicasConv
deriving DecidableEq

/-- A record published on the `actions` topic: either a `kind = "plan"`
envelope, or the `kind = "error"` record of the outer exception handler
(src/planner.py line 280), whose `error` string is abstracted by `PyErr`. -/
inductive OutMsg
  | plan (env : PlanEnvelope)
  | err (e : PyErr) (raw : Msg)
deriving DecidableEq

def isPlanOut : OutMsg → Bool
  | OutMsg.plan _ => true
  | OutMsg.err _ _ => false

/-- Outcome of the oracle HTTP exchange, had it been performed: a parsed 2xx
body (`action` and `reason` JSON fields), a 429 with an optional numeric
`Retry-After` header, or any other failure (network, 5xx, body parse),
carrying `str(exception)`. -/
inductive OracleResp
  | ok (action : String) (reason : String)
  | http429 (retryAfter : Option ℚ)
  | fail (err : String)
deriving DecidableEq

/-- Per-message environment inputs: the wall clock, the `random.random()`
sample, whether `LLM_API_KEY` is non-empty, and the oracle's behaviour. -/
structure Env where
  now : ℚ
  jitter : ℚ
  hasKey : Bool
  oracle : OracleResp
deriving DecidableEq

inductive Band
  | bandInit
  | veryHigh
  | high
  | mid
  | near
  | low
deriving DecidableEq

/-- `_band_key` result: `("init", replicas)` or `(band, replicas, tuple(low_flags))`. -/
inductive BandKey
  | initKey (replicas : ℤ)
  | key (band : Band) (replicas : ℤ) (flags : List Bool)
deriving DecidableEq

/-- Planner mutable state (src/planner.py lines 56-65). -/
structure PState where
  last_action_ts : ℚ
  last_llm_call : ℚ
  bucket_tokens : ℚ
  bucket_updated : ℚ
  backoff_until : ℚ
  backoff_power : ℕ
  p95_hist : List ℚ
  low_flags : List Bool
  last_state_key : Option BandKey
deriving DecidableEq

/-- Startup state (`t0` = process start time used to seed `_bucket_updated`). -/
def initState (t0 : ℚ) : PState :=
  { last_action_ts := 0
    last_llm_call := 0
    bucket_tokens := LLM_RPM
    bucket_updated := t0
    backoff_until := 0
    backoff_power := 0
    p95_hist := []
    low_flags := []
    last_state_key := none }

/-! ### Planner pure functions -/

/-- `_robust_stats`: (median, 1.4826 * MAD) with the source's guards. -/
def robustStats (samples : List ℚ) : ℚ × ℚ :=
  if samples.isEmpty then (0, 0)
  else
    let med := median samples
    if samples.length = 1 then (med, 0)
    else
      let mad := median (samples.map (fun x => |x - med|))
      (med, if mad > 0 then (7413 / 5000) * mad else 0)

/-- `_is_near_baseline`. -/
def isNearBaseline (p95 baseline sigma : ℚ) : Bool :=
  if baseline ≤ 0 then false
  else decide (p95 ≤ baseline * BETA_DOWN + max 5 ((1/4) * sigma))

/-- `_band_key` (the `sigma` argument is unused in the source as well). -/
def bandKey (baseline sigma p95 : ℚ) (replicas : ℤ) (flags : List Bool) : BandKey :=
  if baseline ≤ 0 then BandKey.initKey replicas
  else
    let ratio := if baseline > 0 then p95 / baseline else 0
    let band := if ratio ≥ 8 then Band.veryHigh
      else if ratio ≥ 3 then Band.high
      else if ratio ≥ 3/2 then Band.mid
      else if ratio ≥ 9/10 then Band.near
      else Band.low
    BandKey.key band replicas flags

/-- `_handle_429`: new `(backoff_until, backoff_power)`.  `retryAfter` is the
`Retry-After` header when present and numeric (otherwise the exponential
default applies); either value is clamped to `LLM_BACKOFF_MAX_SEC`. -/
def handle429 (power : ℕ) (retryAfter : Option ℚ) (now : ℚ) : ℚ × ℕ :=
  let wait := min (retryAfter.getD (LLM_BACKOFF_BASE_SEC * 2 ^ power)) LLM_BACKOFF_MAX_SEC
  (now + wait, min (power + 1) 4)

/-- `_refill_bucket`: new `(tokens, updated_ts)`. -/
def refillBucket (tokens updated now : ℚ) : ℚ × ℚ :=
  (min LLM_RPM (tokens + LLM_RPM * ((now - updated) / 60)), now)

/-- `_take_token`: (granted?, tokens, updated_ts). -/
def takeToken (tokens updated now : ℚ) : Bool × ℚ × ℚ :=
  if (refillBucket tokens updated now).1 ≥ 1 then
    (true, (refillBucket tokens updated now).1 - 1, (refillBucket tokens updated now).2)
  else (false, (refillBucket tokens updated now).1, (refillBucket tokens updated now).2)

/-- Validation of the oracle's parsed 2xx body (src/planner.py lines 158-162):
unknown action becomes `noop`, target is forced to `app`, reason is stripped
and truncated to 160 characters. -/
def sanitizeOracle (a reason : String) : Decision :=
  { action := if ALLOWED.contains a then a else ("noop")
    target := ("app")
    reason := (reason.trim).take 160 }

/-- `_heuristic_decision` (src/planner.py lines 164-176).  `flags` is the
global `low_flags` deque at call time. -/
def heuristicDecision (p95 baseline sigma : ℚ) (replicas : ℤ)
    (have_baseline : Bool) (flags : List Bool) : Decision :=
  if have_baseline then
    if ((if baseline > 0 then p95 / baseline else 0) ≥ ALPHA_UP
          ∨ (p95 - baseline) / (if sigma > 0 then sigma else 1) ≥ 6)
        ∧ replicas < MAX_REPLICAS then
      { action := ("scale_up"), target := ("app"),
        reason := fmt1 (if baseline > 0 then p95 / baseline else 0) ++ ("x baseline") }
    else if (flags.all (fun b => b)) = true ∧ MIN_REPLICAS < replicas then
      { action := ("scale_down"), target := ("app"), reason := ("near baseline for 3w") }
    else { action := ("noop"), target := ("app"), reason := ("heuristic") }
  else { action := ("noop"), target := ("app"), reason := ("warming") }

def isImpactful (a : String) : Bool :=
  a == ("scale_up") || a == ("scale_down") || a == ("restart")

/-! ### Planner per-window step, decomposed (src/planner.py main loop) -/

def winHist (st : PState) (p95 : ℚ) : List ℚ :=
  pushBounded HIST_WINDOWS st.p95_hist p95

def winHaveBaseline (st : PState) (p95 : ℚ) : Bool :=
  decide ((winHist st p95).length ≥ max 1 WARMUP_WINDOWS)

/-- Baseline after the optional `IDLE_HINT_MS` seeding (a dead branch under
the default `IDLE_HINT_MS = 0`, kept as in the source). -/
def winBaseline (st : PState) (p95 : ℚ) : ℚ :=
  let b := (robustStats (winHist st p95)).1
  if winHaveBaseline st p95 = false ∧ IDLE_HINT_MS > 0 ∧ b = 0 then IDLE_HINT_MS else b

def winSigma (st : PState) (p95 : ℚ) : ℚ :=
  (robustStats (winHist st p95)).2

def winNear (st : PState) (p95 : ℚ) : Bool :=
  if winHaveBaseline st p95 then isNearBaseline p95 (winBaseline st p95) (winSigma st p95)
  else false

def winFlags (st : PState) (p95 : ℚ) : List Bool :=
  pushBounded LOW_NEED_N st.low_flags (winNear st p95)

def winKey (st : PState) (p95 : ℚ) (replicas : ℤ) : BandKey :=
  bandKey (winBaseline st p95) (winSigma st p95) p95 replicas (winFlags st p95)

def winChanged (st : PState) (p95 : ℚ) (replicas : ℤ) : Bool :=
  decide (some (winKey st p95 replicas) ≠ st.last_state_key)

def winHeartbeat (st : PState) (e : Env) : Bool :=
  decide ((e.now - st.last_llm_call) ≥ LLM_HEARTBEAT_SEC * (9/10 + (2/10) * e.jitter))

def winCooldownOk (st : PState) (e : Env) : Bool :=
  decide ((e.now - st.last_action_ts) ≥ COOLDOWN_SEC)

/-- The first four conjuncts of the `call_llm` gate; Python's `and` evaluates
`_take_token()` (the only side-effecting conjunct, last) only when these
pass. -/
def winGatePre (st : PState) (e : Env) (p95 : ℚ) (replicas : ℤ) : Bool :=
  e.hasKey && decide (e.now ≥ st.backoff_until)
    && (winChanged st p95 replicas || winHeartbeat st e) && winCooldownOk st e

/-- Token-bucket state after the gate: touched only when the earlier gates
passed (short-circuit). -/
def winBucket (st : PState) (e : Env) (p95 : ℚ) (replicas : ℤ) : Bool × ℚ × ℚ :=
  if winGatePre st e p95 replicas then takeToken st.bucket_tokens st.bucket_updated e.now
  else (false, st.bucket_tokens, st.bucket_updated)

def winCallLlm (st : PState) (e : Env) (p95 : ℚ) (replicas : ℤ) : Bool :=
  winGatePre st e p95 replicas && (winBucket st e p95 replicas).1

def winHeur (st : PState) (p95 : ℚ) (replicas : ℤ) : Decision :=
  heuristicDecision p95 (winBaseline st p95) (winSigma st p95) replicas
    (winHaveBaseline st p95) (winFlags st p95)

/-- Decision before the cooldown override, together with the new
`(last_llm_call, backoff_until, backoff_power)` (src/planner.py lines
238-255).  A 429 runs `_handle_429` before the `RuntimeError("llm_429")`
escapes `_call_gemini` and is caught by the generic fallback, so its reason
suffix is `(llm_fallback: llm_429)`. -/
def winDecision0 (st : PState) (e : Env) (p95 : ℚ) (replicas : ℤ) :
    Decision × ℚ × ℚ × ℕ :=
  let heur := winHeur st p95 replicas
  if winCallLlm st e p95 replicas then
    match e.oracle with
    | OracleResp.ok a r => (sanitizeOracle a r, e.now, st.backoff_until, 0)
    | OracleResp.http429 ra =>
        let hb := handle429 st.backoff_power ra e.now
        ({ heur with reason := heur.reason ++ (" (llm_fallback: llm_429)") },
         st.last_llm_call, hb.1, hb.2)
    | OracleResp.fail err =>
        ({ heur with reason := heur.reason ++ (" (llm_fallback: ") ++ err ++ (")") },
         st.last_llm_call, st.backoff_until, st.backoff_power)
  else
    let suffix := if e.now < st.backoff_until then (" (llm_backoff)")
      else if e.hasKey = false then (" (no_llm_key)")
      else if winCooldownOk st e = false then (" (cooldown)")
      else (" (cadence)")
    ({ heur with reason := heur.reason ++ suffix },
     st.last_llm_call, st.backoff_until, st.backoff_power)

/-- Cooldown override (src/planner.py lines 257-259). -/
def winDecision (st : PState) (e : Env) (p95 : ℚ) (replicas : ℤ) : Decision :=
  if winCooldownOk st e = false
      ∧ isImpactful ((winDecision0 st e p95 replicas).1).action = true then
    { action := ("noop"), target := ("app"), reason := ("cooldown") }
  else (winDecision0 st e p95 replicas).1

/-- Full state transition and published envelope for a parsed window. -/
def plannerStepParsed (st : PState) (e : Env) (p95 : ℚ) (replicas : ℤ) :
    PState × PlanEnvelope :=
  let d := winDecision st e p95 replicas
  let w := winDecision0 st e p95 replicas
  let b := winBucket st e p95 replicas
  ({ last_action_ts := if isImpactful d.action then e.now else st.last_action_ts
     last_llm_call := w.2.1
     bucket_tokens := b.2.1
     bucket_updated := b.2.2
     backoff_until := w.2.2.1
     backoff_power := w.2.2.2
     p95_hist := winHist st p95
     low_flags := winFlags st p95
     last_state_key := some (winKey st p95 replicas) },
   { ts := e.now
     container := ("app")
     decision := d
     telemetry :=
       { p95_ms := p95
         baseline_ms := winBaseline st p95
         sigma_ms := winSigma st p95
         low_windows := winFlags st p95
         replicas := replicas } })

/-- One iteration of the planner's consumer loop on an arbitrary message:
the `kind` filter, the two fallible conversions (whose exceptions reach the
outer handler, which publishes an error record — note the `p95_hist` append
precedes the `replicas` conversion), then the parsed step. -/
def plannerStep (st : PState) (e : Env) (msg : Msg) : PState × List OutMsg :=
  if msg.kind ≠ some ("latency_metrics") then (st, [])
  else match pyFloat? msg.p95_ms with
    | none => (st, [OutMsg.err PyErr.p95Conv msg])
    | some p95 =>
      match pyInt? msg.replicas with
      | none =>
          ({ st with p95_hist := pushBounded HIST_WINDOWS st.p95_hist p95 },
           [OutMsg.err PyErr.replicasConv msg])
      | some replicas =>
          let r := plannerStepParsed st e p95 replicas
          (r.1, [OutMsg.plan r.2])

/-- The planner state after consuming a list of messages from startup. -/
def runPlanner (t0 : ℚ) (trace : List (Env × Msg)) : PState :=
  trace.foldl (fun s em => (plannerStep s em.1 em.2).1) (initState t0)

/-- A message the planner can process without an exception (either filtered
out by `kind`, or with both conversions succeeding). -/
def wfMsg (m : Msg) : Bool :=
  !(m.kind == some ("latency_metrics"))
    || ((pyFloat? m.p95_ms).isSome && (pyInt? m.replicas).isSome)

/-- Bounded-deque length invariant of the planner's two history deques:
`n` counts the latency windows processed so far. -/
def lensOk (st : PState) : Prop :=
  ∃ n : ℕ, st.p95_hist.length = min n HIST_WINDOWS
    ∧ st.low_flags.length = min n LOW_NEED_N

/-! ### Executor and probe (src/executor.py, src/monitor.py) -/

/-- Strip a prescribed leading character sequence, returning the remainder. -/
def dropPre : List Char → List Char → Option (List Char)
  | [], ys => some ys
  | _ :: _, [] => none
  | x :: xs, y :: ys => if x = y then dropPre xs ys else none

def startsWithChars (p n : List Char) : Bool := (dropPre p n).isSome

/-- The characters of `f"{base}-dup-"`. -/
def sibPat (base : String) : List Char :=
  base.data ++ ['-', 'd', 'u', 'p', '-']

/-- `re.match(rf"^{re.escape(base)}-dup-\d+$", name)` as a predicate (ASCII
digits; the source's `\d` also admits other Unicode digit classes, which no
generated container name contains). -/
def siblingMatch (base name : String) : Bool :=
  match dropPre (sibPat base) name.data with
  | some rest => !rest.isEmpty && rest.all (fun c => c.isDigit)
  | none => false

/-- Executor's replica-classification rule (src/executor.py `list_all_like`):
exact primary name or the full `^base-dup-\d+$` pattern. -/
def executorReplicaName (base name : String) : Bool :=
  name == base || siblingMatch base name

/-- Probe's replica-classification rule (src/monitor.py `_count_replicas`):
exact primary name `app` or the *prefix* test `name.startswith ("app-dup-")`. -/
def probeReplicaName (name : String) : Bool :=
  name == ("app") || startsWithChars (("app-dup-").data) name.data

structure Container where
  name : String
  labels : List (String × String)
  running : Bool
deriving DecidableEq

structure DockerState where
  containers : List Container
deriving DecidableEq

/-- Lexicographic comparison of names (Python string `<` on code points). -/
def lexLtChars : List Char → List Char → Bool
  | [], [] => false
  | [], _ :: _ => true
  | _ :: _, [] => false
  | a :: as, b :: bs => if a = b then lexLtChars as bs else decide (a < b)

def insertByName (c : Container) : List Container → List Container
  | [] => [c]
  | d :: ds =>
      if lexLtChars d.name.data c.name.data then d :: insertByName c ds
      else c :: d :: ds

/-- `sorted(..., key=lambda c: c.name)`. -/
def sortByName (cs : List Container) : List Container := cs.foldr insertByName []

/-- `list_all_like` enumerates over `containers.list(all=True)` — running and
stopped containers alike. -/
def listAllLike (ds : DockerState) (base : String) : List Container :=
  sortByName (ds.containers.filter (fun c => executorReplicaName base c.name))

/-- The probe counts only *running* containers and floors the result at 1. -/
def probeCountReplicas (ds : DockerState) : ℕ :=
  max ((ds.containers.filter (fun c => c.running && probeReplicaName c.name)).length) 1

/-- A container-runtime call that mutates state (restart / create / stop /
remove); the executor's outputs of this kind are collected, not performed. -/
inductive RtCall
  | restartC (name : String)
  | createSibling (base : String) (epoch : ℤ)
  | stopC (name : String)
  | removeC (name : String)
deriving DecidableEq

/-- A record on the `results` topic; `message` is empty when the source
publishes no `message` key. -/
structure ResultRec where
  action : String
  target : String
  reason : String
  status : String
  message : String
deriving DecidableEq

/-- The fields of an `actions` message the executor reads. -/
structure ExecMsg where
  kind : Option String
  decision : Decision
deriving DecidableEq

/-- One iteration of the executor's consumer loop (src/executor.py `main`):
label opt-in check, then dispatch.  Returns the published `results` records
and the runtime-mutating calls performed.  (`epoch` is `int(time.time())`,
used for the sibling name; result `message` strings for start/removal are
abbreviated.) -/
def executorStep (ds : DockerState) (epoch : ℤ) (msg : ExecMsg) :
    List ResultRec × List RtCall :=
  if msg.kind ≠ some ("plan") then ([], [])
  else
    match ds.containers.find? (fun c => c.name == msg.decision.target) with
    | none =>
        ([{ action := ("noop"), target := msg.decision.target,
            reason := ("target container not found"),
            status := ("error"), message := ("") }], [])
    | some tc =>
        if tc.labels.lookup ("agentic.target") ≠ some ("true") then
          ([{ action := ("noop"), target := msg.decision.target,
              reason := ("target not labeled agentic.target=true"),
              status := ("skipped"), message := ("") }], [])
        else if msg.decision.action == ("restart") then
          ([{ action := msg.decision.action, target := msg.decision.target,
              reason := msg.decision.reason, status := ("ok"),
              message := ("restarted ") ++ msg.decision.target }],
           [RtCall.restartC msg.decision.target])
        else if msg.decision.action == ("scale_up") then
          if (listAllLike ds msg.decision.target).length ≥ EXEC_MAX_REPLICAS then
            ([{ action := msg.decision.action, target := msg.decision.target,
                reason := msg.decision.reason, status := ("noop"),
                message := ("max replicas 5 reached") }], [])
          else
            ([{ action := msg.decision.action, target := msg.decision.target,
                reason := msg.decision.reason, status := ("ok"),
                message := ("started sibling") }],
             [RtCall.createSibling msg.decision.target epoch])
        else if msg.decision.action == ("scale_down") then
          match ((listAllLike ds msg.decision.target).filter
              (fun c => !(c.name == msg.decision.target))).getLast? with
          | none =>
              ([{ action := msg.decision.action, target := msg.decision.target,
                  reason := msg.decision.reason, status := ("noop"),
                  message := ("no siblings to remove") }], [])
          | some v =>
              ([{ action := msg.decision.action, target := msg.decision.target,
                  reason := msg.decision.reason, status := ("ok"),
                  message := ("removed ") ++ v.name }],
               [RtCall.stopC v.name, RtCall.removeC v.name])
        else
          ([{ action := msg.decision.action, target := msg.decision.target,
              reason := msg.decision.reason, status := ("ok"),
              message := ("noop") }], [])

/-! ### Concrete inputs used by witnesses and counterexamples -/

/-- A startup-like planner state whose token bucket was last refilled at
`t = 100` (so a step at `now = 100` refills nothing). -/
def wStOracle : PState :=
  { last_action_ts := 0, last_llm_call := 0, bucket_tokens := 2, bucket_updated := 100
    backoff_until := 0, backoff_power := 0, p95_hist := [], low_flags := []
    last_state_key := none }

/-- A warmed-up state (12 windows of `p95 = 10`) still inside cooldown at
`now = 100` (last impactful action at `t = 95`). -/
def wStCooldown : PState :=
  { last_action_ts := 95, last_llm_call := 0, bucket_tokens := 2, bucket_updated := 100
    backoff_until := 0, backoff_power := 0, p95_hist := List.replicate 12 10
    low_flags := [], last_state_key := none }

/-- Same as `wStCooldown` but with cooldown long expired. -/
def wStFree : PState := { wStCooldown with last_action_ts := 0 }

def wEnvNoKey100 : Env :=
  { now := 100, jitter := 0, hasKey := false, oracle := OracleResp.fail ("") }

def wEnvOracleUp : Env :=
  { now := 100, jitter := 0, hasKey := true, oracle := OracleResp.ok ("scale_up") ("") }

def wEnv429 : Env :=
  { now := 100, jitter := 0, hasKey := true, oracle := OracleResp.http429 none }

def wEnvNoKey1000 : Env :=
  { now := 1000, jitter := 0, hasKey := false, oracle := OracleResp.fail ("") }

def wMsg50 : Msg :=
  { kind := some ("latency_metrics"), p95_ms := some (JVal.num 50)
    replicas := some (JVal.num 2) }

/-- 14 identical well-formed idle windows: enough to warm the baseline and
fill `low_flags` with `true`s. -/
def wTrace14 : List (Env × Msg) := List.replicate 14 (wEnvNoKey1000, wMsg50)

def wMsgBadP95 : Msg :=
  { kind := some ("latency_metrics"), p95_ms := some JVal.null, replicas := none }

def wMsgBadReplicas : Msg :=
  { kind := some ("latency_metrics"), p95_ms := some (JVal.num 50)
    replicas := some JVal.null }

/-- 12 `latency_metrics` windows with a good `p95_ms` but `replicas = null`:
each appends to `p95_hist` and then raises at the `int(...)` conversion,
before the `low_flags` append — warming the baseline while leaving
`low_flags` empty. -/
def wTraceBad12 : List (Env × Msg) := List.replicate 12 (wEnvNoKey1000, wMsgBadReplicas)

/-- A container named `app` that lacks the `agentic.target=true` label. -/
def wUnlabeled : Container :=
  { name := ("app"), labels := [(("role"), ("web"))], running := true }

def wDocker : DockerState := { containers := [wUnlabeled] }

def wPlanUp : ExecMsg :=
  { kind := some ("plan")
    decision := { action := ("scale_up"), target := ("app"), reason := ("r") } }

/-! ### Helper lemmas -/

theorem pushBounded_length {α : Type} (m : ℕ) (xs : List α) (x : α) :
    (pushBounded m xs x).length = min (xs.length + 1) m := by
  simp [pushBounded]
  omega

theorem heur_up_bound (p95 baseline sigma : ℚ) (replicas : ℤ)
    (hb : Bool) (flags : List Bool)
    (h : (heuristicDecision p95 baseline sigma replicas hb flags).action = ("scale_up")) :
    replicas < MAX_REPLICAS := by
  unfold heuristicDecision at h
  cases hb with
  | false =>
      rw [if_neg (by decide : ¬(false = true))] at h
      exact absurd (show ("noop") = ("scale_up") from h) (by decide)
  | true =>
      rw [if_pos rfl] at h
      by_cases hc : (((if baseline > 0 then p95 / baseline else 0) ≥ ALPHA_UP
          ∨ (p95 - baseline) / (if sigma > 0 then sigma else 1) ≥ 6)
          ∧ replicas < MAX_REPLICAS)
      · exact hc.2
      · rw [if_neg hc] at h
        by_cases hc2 : ((flags.all (fun b => b)) = true ∧ MIN_REPLICAS < replicas)
        · rw [if_pos hc2] at h
          exact absurd (show ("scale_down") = ("scale_up") from h) (by decide)
        · rw [if_neg hc2] at h
          exact absurd (show ("noop") = ("scale_up") from h) (by decide)

theorem heur_down_bound (p95 baseline sigma : ℚ) (replicas : ℤ)
    (hb : Bool) (flags : List Bool)
    (h : (heuristicDecision p95 baseline sigma replicas hb flags).action = ("scale_down")) :
    MIN_REPLICAS < replicas := by
  unfold heuristicDecision at h
  cases hb with
  | false =>
      rw [if_neg (by decide : ¬(false = true))] at h
      exact absurd (show ("noop") = ("scale_down") from h) (by decide)
  | true =>
      rw [if_pos rfl] at h
      by_cases hc : (((if baseline > 0 then p95 / baseline else 0) ≥ ALPHA_UP
          ∨ (p95 - baseline) / (if sigma > 0 then sigma else 1) ≥ 6)
          ∧ replicas < MAX_REPLICAS)
      · rw [if_pos hc] at h
        exact absurd (show ("scale_up") = ("scale_down") from h) (by decide)
      · rw [if_neg hc] at h
        by_cases hc2 : ((flags.all (fun b => b)) = true ∧ MIN_REPLICAS < replicas)
        · exact hc2.2
        · rw [if_neg hc2] at h
          exact absurd (show ("noop") = ("scale_down") from h) (by decide)

theorem winDecision0_action_noLlm (st : PState) (e : Env) (p95 : ℚ) (replicas : ℤ)
    (h : winCallLlm st e p95 replicas = false) :
    ((winDecision0 st e p95 replicas).1).action = (winHeur st p95 replicas).action := by
  simp [winDecision0, h]

theorem plannerStep_lensOk (st : PState) (e : Env) (m : Msg)
    (hwf : wfMsg m = true) (h : lensOk st) : lensOk (plannerStep st e m).1 := by
  obtain ⟨n, h1, h2⟩ := h
  by_cases hk : m.kind = some ("latency_metrics")
  · have hbeq : (m.kind == some ("latency_metrics")) = true := by
      rw [hk]; exact beq_self_eq_true _
    simp only [wfMsg, hbeq, Bool.not_true, Bool.false_or,
      Bool.and_eq_true, Option.isSome_iff_exists] at hwf
    obtain ⟨⟨p95, hp⟩, ⟨replicas, hr⟩⟩ := hwf
    refine ⟨n + 1, ?_, ?_⟩
    · have : (plannerStep st e m).1.p95_hist = winHist st p95 := by
        simp [plannerStep, hk, hp, hr, plannerStepParsed]
      rw [this, winHist, pushBounded_length, h1]
      omega
    · have : (plannerStep st e m).1.low_flags = winFlags st p95 := by
        simp [plannerStep, hk, hp, hr, plannerStepParsed]
      rw [this, winFlags, pushBounded_length, h2]
      omega
  · have : (plannerStep st e m).1 = st := by
      simp [plannerStep, hk]
    rw [this]
    exact ⟨n, h1, h2⟩

theorem foldl_lensOk (trace : List (Env × Msg)) :
    ∀ st : PState, (∀ p ∈ trace, wfMsg p.2 = true) → lensOk st →
      lensOk (trace.foldl (fun s em => (plannerStep s em.1 em.2).1) st) := by
  induction trace with
  | nil => intro st _ h; simpa using h
  | cons hd tl ih =>
      intro st hwf h
      simp only [List.foldl_cons]
      exact ih _ (fun p hp => hwf p (List.mem_cons_of_mem _ hp))
        (plannerStep_lensOk st hd.1 hd.2 (hwf hd (List.mem_cons_self _ _)) h)

theorem runPlanner_lensOk (t0 : ℚ) (trace : List (Env × Msg))
    (hwf : ∀ p ∈ trace, wfMsg p.2 = true) : lensOk (runPlanner t0 trace) := by
  exact foldl_lensOk trace (initState t0) hwf ⟨0, by simp [initState], by simp [initState]⟩

/-! ### Claim theorems -/

/-- Claim C1: if at decision-override time `now − last_action_ts <
COOLDOWN_SEC` and the computed decision's action is impactful, the planner
replaces it with `{noop, app, "cooldown"}`; no impactful action is emitted
during cooldown; and whenever an impactful action is emitted,
`last_action_ts` is set to the current time.  (The published decision is the
overridden one.) -/
theorem cooldown_invariant (st : PState) (e : Env) (p95 : ℚ) (replicas : ℤ) :
    (e.now - st.last_action_ts < COOLDOWN_SEC →
      isImpactful ((winDecision st e p95 replicas)).action = false ∧
      (isImpactful ((winDecision0 st e p95 replicas).1).action = true →
        winDecision st e p95 replicas =
          { action := ("noop"), target := ("app"), reason := ("cooldown") })) ∧
    (isImpactful ((winDecision st e p95 replicas)).action = true →
      (plannerStepParsed st e p95 replicas).1.last_action_ts = e.now) ∧
    ((plannerStepParsed st e p95 replicas).2.decision = winDecision st e p95 replicas) := by
  refine ⟨?_, ?_, rfl⟩
  · intro h
    have hcool : winCooldownOk st e = false := by
      simp only [winCooldownOk, decide_eq_false_iff_not]
      exact not_le.mpr h
    cases himp : isImpactful ((winDecision0 st e p95 replicas).1).action with
    | false =>
        constructor
        · rw [winDecision, if_neg]
          · exact himp
          · intro hcontra
            rw [himp] at hcontra
            exact absurd hcontra.2 (by decide)
        · intro hcontra
          exact absurd hcontra (by decide)
    | true =>
        constructor
        · rw [winDecision, if_pos ⟨hcool, himp⟩]
          decide
        · intro _
          rw [winDecision, if_pos ⟨hcool, himp⟩]
  · intro h
    show (if isImpactful (winDecision st e p95 replicas).action then e.now
        else st.last_action_ts) = e.now
    rw [h]
    rfl

/-- Witness for C1: inside cooldown a heuristic `scale_up` is replaced by the
`cooldown` noop; outside cooldown the emitted `scale_up` stamps
`last_action_ts` with the current time. -/
theorem cooldown_invariant_witness :
    winDecision wStCooldown wEnvNoKey100 1000 3 =
      { action := ("noop"), target := ("app"), reason := ("cooldown") } ∧
    (plannerStepParsed wStFree wEnvNoKey100 1000 3).1.last_action_ts = 100 :=
  ⟨((cooldown_invariant wStCooldown wEnvNoKey100 1000 3).1 (by decide)).2 (by decide),
   ((cooldown_invariant wStFree wEnvNoKey100 1000 3).2.1 (by decide)).trans (by decide)⟩

/-- Claim C2 counterexample: with `replicas = 10 ≥ MAX_REPLICAS` and the
oracle advising `scale_up`, the planner emits `scale_up` anyway — the
oracle path performs no replica-bound check. -/
theorem replica_bound_cex :
    (plannerStepParsed wStOracle wEnvOracleUp 50 10).2.decision.action = ("scale_up") ∧
    (plannerStepParsed wStOracle wEnvOracleUp 50 10).2.telemetry.replicas = 10 ∧
    winCallLlm wStOracle wEnvOracleUp 50 10 = true ∧
    MAX_REPLICAS ≤ 10 := by
  refine ⟨by decide, by decide, by decide, by decide⟩

/-- Claim C2 (amended): on the heuristic path (oracle not consulted), the
planner never emits `scale_up` with `replicas ≥ MAX_REPLICAS` nor
`scale_down` with `replicas ≤ MIN_REPLICAS`. -/
theorem replica_bound_heuristic (st : PState) (e : Env) (p95 : ℚ) (replicas : ℤ)
    (h : winCallLlm st e p95 replicas = false) :
    ((plannerStepParsed st e p95 replicas).2.decision.action = ("scale_up") →
      replicas < MAX_REPLICAS) ∧
    ((plannerStepParsed st e p95 replicas).2.decision.action = ("scale_down") →
      MIN_REPLICAS < replicas) := by
  have hact := winDecision0_action_noLlm st e p95 replicas h
  have hdec : (plannerStepParsed st e p95 replicas).2.decision
      = winDecision st e p95 replicas := rfl
  constructor
  · intro hup
    rw [hdec, winDecision] at hup
    by_cases hov : (winCooldownOk st e = false
        ∧ isImpactful ((winDecision0 st e p95 replicas).1).action = true)
    · rw [if_pos hov] at hup
      exact absurd (show ("noop") = ("scale_up") from hup) (by decide)
    · rw [if_neg hov] at hup
      rw [hact] at hup
      exact heur_up_bound p95 (winBaseline st p95) (winSigma st p95) replicas
        (winHaveBaseline st p95) (winFlags st p95) hup
  · intro hdown
    rw [hdec, winDecision] at hdown
    by_cases hov : (winCooldownOk st e = false
        ∧ isImpactful ((winDecision0 st e p95 replicas).1).action = true)
    · rw [if_pos hov] at hdown
      exact absurd (show ("noop") = ("scale_down") from hdown) (by decide)
    · rw [if_neg hov] at hdown
      rw [hact] at hdown
      exact heur_down_bound p95 (winBaseline st p95) (winSigma st p95) replicas
        (winHaveBaseline st p95) (winFlags st p95) hdown

/-- Witness for C2 (amended): a heuristic-path `scale_up` (warmed state,
spiking p95, no API key) indeed has `replicas = 3 < MAX_REPLICAS`, and a
heuristic-path `scale_down` has `replicas = 5 > MIN_REPLICAS`. -/
theorem replica_bound_heuristic_witness :
    (3 : ℤ) < MAX_REPLICAS ∧ MIN_REPLICAS < (5 : ℤ) :=
  ⟨(replica_bound_heuristic wStFree wEnvNoKey100 1000 3 (by decide)).1 (by decide),
   (replica_bound_heuristic (runPlanner 0 wTrace14) wEnvNoKey1000 50 5 (by decide)).2
     (by decide)⟩

/-- Claim C3: a well-formed `latency_metrics` message yields exactly one
published record — a `plan` envelope — whose telemetry block carries the
values computed for this window (`p95`, baseline, sigma, the updated
`low_flags`, and `replicas`), the same values fed to the heuristic. -/
theorem one_envelope_per_window (st : PState) (e : Env) (msg : Msg)
    (p95 : ℚ) (replicas : ℤ)
    (hk : msg.kind = some ("latency_metrics"))
    (hp : pyFloat? msg.p95_ms = some p95)
    (hr : pyInt? msg.replicas = some replicas) :
    (plannerStep st e msg).2 = [OutMsg.plan (plannerStepParsed st e p95 replicas).2] ∧
    (plannerStepParsed st e p95 replicas).2.telemetry =
      { p95_ms := p95, baseline_ms := winBaseline st p95, sigma_ms := winSigma st p95,
        low_windows := winFlags st p95, replicas := replicas } ∧
    winHeur st p95 replicas =
      heuristicDecision p95 (winBaseline st p95) (winSigma st p95) replicas
        (winHaveBaseline st p95) (winFlags st p95) := by
  refine ⟨?_, rfl, rfl⟩
  simp [plannerStep, hk, hp, hr]

/-- Witness for C3 at a concrete well-formed window. -/
theorem one_envelope_per_window_witness :
    (plannerStep wStOracle wEnvNoKey100 wMsg50).2 =
      [OutMsg.plan (plannerStepParsed wStOracle wEnvNoKey100 50 2).2] :=
  (one_envelope_per_window wStOracle wEnvNoKey100 wMsg50 50 2 rfl rfl rfl).1

/-- Claim C4 counterexample: at `p95 = 14`, `baseline = 10`, `sigma = 1/2`,
`replicas = 2`, the code divides by `sigma = 1/2` (not `max sigma 1 = 1`) and
returns `scale_up` (its z is 8), although under the claim's
`z = (p95 − baseline)/max(sigma, 1) = 4 < 6` and `ratio = 1.4 < ALPHA_UP`
no `scale_up` should fire. -/
theorem z_denominator_cex :
    heuristicDecision 14 10 (1/2) 2 true [] =
      { action := ("scale_up"), target := ("app"), reason := ("1.4x baseline") } ∧
    ¬(((14 : ℚ) - 10) / max (1/2) 1 ≥ 6) ∧
    ¬((14 : ℚ) / 10 ≥ ALPHA_UP) := by
  refine ⟨by decide, by decide, by decide⟩

/-- Claim C4 (amended): for `have_baseline` inputs the heuristic returns
`scale_up` with reason `"<ratio:.1f>x baseline"` iff
`(ratio ≥ ALPHA_UP ∨ z ≥ 6) ∧ replicas < MAX_REPLICAS`, where
`ratio = p95/baseline` (0 if `baseline ≤ 0`) and — unlike the spec's
`max(sigma, 1)` — `z = (p95 − baseline)/sigma` whenever `sigma > 0` (so the
denominator can be below 1), falling back to 1 only when `sigma ≤ 0`. -/
theorem scale_up_rule (p95 baseline sigma : ℚ) (replicas : ℤ) (flags : List Bool) :
    (heuristicDecision p95 baseline sigma replicas true flags =
      { action := ("scale_up"), target := ("app"),
        reason := fmt1 (if baseline > 0 then p95 / baseline else 0) ++ ("x baseline") })
    ↔ (((if baseline > 0 then p95 / baseline else 0) ≥ ALPHA_UP
          ∨ (p95 - baseline) / (if sigma > 0 then sigma else 1) ≥ 6)
        ∧ replicas < MAX_REPLICAS) := by
  unfold heuristicDecision
  rw [if_pos rfl]
  by_cases hc : (((if baseline > 0 then p95 / baseline else 0) ≥ ALPHA_UP
      ∨ (p95 - baseline) / (if sigma > 0 then sigma else 1) ≥ 6)
      ∧ replicas < MAX_REPLICAS)
  · rw [if_pos hc]
    exact iff_of_true rfl hc
  · rw [if_neg hc]
    refine iff_of_false ?_ hc
    by_cases hc2 : ((flags.all (fun b => b)) = true ∧ MIN_REPLICAS < replicas)
    · rw [if_pos hc2]
      intro hcontra
      exact absurd
        (show ("scale_down") = ("scale_up") from congrArg Decision.action hcontra)
        (by decide)
    · rw [if_neg hc2]
      intro hcontra
      exact absurd
        (show ("noop") = ("scale_up") from congrArg Decision.action hcontra)
        (by decide)

/-- Claim C5 counterexample: a reachable execution returns `scale_down` with
`low_flags` holding fewer than `LOW_NEED_N` entries.  Twelve
`latency_metrics` messages whose `replicas` is null each append to
`p95_hist` and then raise at the `int(...)` conversion (before the
`low_flags` append), so the baseline warms while `low_flags` stays empty;
the next good window (`p95 = 50`, `replicas = 5`) then has
`low_flags = [true]` of length 1 and `all([true])` holds, so the heuristic
returns `scale_down` — refuting the claim's "never". -/
theorem scale_down_cex :
    winHaveBaseline (runPlanner 0 wTraceBad12) 50 = true ∧
    winHeur (runPlanner 0 wTraceBad12) 50 5 =
      { action := ("scale_down"), target := ("app"), reason := ("near baseline for 3w") } ∧
    (winFlags (runPlanner 0 wTraceBad12) 50).length = 1 ∧
    1 < LOW_NEED_N := by
  refine ⟨by decide, by decide, by decide, by decide⟩

/-- Claim C5 (amended): when the baseline is warm and the scale-up rule does
not fire, the heuristic returns `scale_down` with reason
`"near baseline for 3w"` iff every entry of `low_flags` is true and
`replicas > MIN_REPLICAS` — the code performs no length check on the deque —
and otherwise returns `noop` with reason `heuristic`.  The deque does hold
exactly `LOW_NEED_N` entries at every warm decision point of a run consuming
only well-formed messages; only windows whose `replicas` conversion raises
(after the `p95_hist` append) can leave it shorter, and then `scale_down`
can fire with fewer than `LOW_NEED_N` entries. -/
theorem scale_down_rule (st : PState) (p95 : ℚ) (replicas : ℤ)
    (hb : winHaveBaseline st p95 = true)
    (hnu : (winHeur st p95 replicas).action ≠ ("scale_up")) :
    ((winHeur st p95 replicas) =
        { action := ("scale_down"), target := ("app"), reason := ("near baseline for 3w") }
      ↔ ((winFlags st p95).all (fun b => b) = true ∧ MIN_REPLICAS < replicas)) ∧
    ((winHeur st p95 replicas).action = ("scale_down")
      ∨ winHeur st p95 replicas =
          { action := ("noop"), target := ("app"), reason := ("heuristic") }) ∧
    (∀ (t0 : ℚ) (trace : List (Env × Msg)), (∀ p ∈ trace, wfMsg p.2 = true) →
      st = runPlanner t0 trace → (winFlags st p95).length = LOW_NEED_N) := by
  refine ⟨?_, ?_, ?_⟩
  · unfold winHeur heuristicDecision at hnu ⊢
    rw [hb] at hnu ⊢
    rw [if_pos rfl] at hnu ⊢
    by_cases hc : (((if winBaseline st p95 > 0
          then p95 / winBaseline st p95 else 0) ≥ ALPHA_UP
        ∨ (p95 - winBaseline st p95) /
            (if winSigma st p95 > 0 then winSigma st p95 else 1) ≥ 6)
        ∧ replicas < MAX_REPLICAS)
    · exact absurd (by rw [if_pos hc]) hnu
    · rw [if_neg hc] at hnu ⊢
      by_cases hc2 : (((winFlags st p95).all (fun b => b)) = true
          ∧ MIN_REPLICAS < replicas)
      · rw [if_pos hc2]
        exact iff_of_true rfl hc2
      · rw [if_neg hc2]
        refine iff_of_false ?_ hc2
        intro hcontra
        exact absurd
          (show ("noop") = ("scale_down") from congrArg Decision.action hcontra)
          (by decide)
  · unfold winHeur heuristicDecision at hnu ⊢
    rw [hb] at hnu ⊢
    rw [if_pos rfl] at hnu ⊢
    by_cases hc : (((if winBaseline st p95 > 0
          then p95 / winBaseline st p95 else 0) ≥ ALPHA_UP
        ∨ (p95 - winBaseline st p95) /
            (if winSigma st p95 > 0 then winSigma st p95 else 1) ≥ 6)
        ∧ replicas < MAX_REPLICAS)
    · exact absurd (by rw [if_pos hc]) hnu
    · rw [if_neg hc] at hnu ⊢
      by_cases hc2 : (((winFlags st p95).all (fun b => b)) = true
          ∧ MIN_REPLICAS < replicas)
      · rw [if_pos hc2]
        exact Or.inl rfl
      · rw [if_neg hc2]
        exact Or.inr rfl
  · intro t0 trace hwf hst
    have hlen := runPlanner_lensOk t0 trace hwf
    rw [← hst] at hlen
    obtain ⟨n, h1, h2⟩ := hlen
    have hb2 : ((winHist st p95).length ≥ max 1 WARMUP_WINDOWS) := by
      have := hb
      simp only [winHaveBaseline, decide_eq_true_eq] at this
      exact this
    rw [winHist, pushBounded_length, h1] at hb2
    rw [winFlags, pushBounded_length, h2]
    simp only [HIST_WINDOWS, WARMUP_WINDOWS, LOW_NEED_N] at hb2 ⊢
    omega

/-- Witness for C5 (amended): after 14 well-formed idle windows the flags
deque is full with three `true`s and the heuristic (scale-up not firing,
`replicas = 5`) returns the `scale_down` decision. -/
theorem scale_down_rule_witness :
    winHeur (runPlanner 0 wTrace14) 50 5 =
      { action := ("scale_down"), target := ("app"), reason := ("near baseline for 3w") } :=
  (scale_down_rule (runPlanner 0 wTrace14) 50 5 (by decide) (by decide)).1.mpr
    ⟨by decide, by decide⟩

/-- Claim C6 counterexample: on the 429 window itself the published reason is
suffixed ` (llm_fallback: llm_429)` — produced by the generic exception
fallback that catches the `RuntimeError("llm_429")` — not ` (llm_backoff)`
as the claim states (that suffix appears only on later windows still inside
backoff).  The backoff fields themselves are set as claimed
(`until = now + 10`, `power = 1`). -/
theorem backoff_reason_cex :
    (winDecision wStOracle wEnv429 50 2).reason = ("warming (llm_fallback: llm_429)") ∧
    (winDecision wStOracle wEnv429 50 2).reason ≠ ("warming (llm_backoff)") ∧
    winCallLlm wStOracle wEnv429 50 2 = true ∧
    (plannerStepParsed wStOracle wEnv429 50 2).1.backoff_until = 110 ∧
    (plannerStepParsed wStOracle wEnv429 50 2).1.backoff_power = 1 := by
  refine ⟨by decide, by decide, by decide, by decide, by decide⟩

/-- Claim C6 (amended): an oracle call only happens with `now ≥
backoff.until_ts`; a 429 sets `until_ts = now + wait` with `wait` the numeric
`Retry-After` when present else `LLM_BACKOFF_BASE_SEC·2^power`, clamped to
`LLM_BACKOFF_MAX_SEC`, and `power := min (power+1) 4`, the window's decision
being the heuristic's with reason suffixed ` (llm_fallback: llm_429)`
(` (llm_backoff)` is used on subsequent backed-off windows); a 2xx success
resets `power` to 0 and stamps `last_llm_call`. -/
theorem backoff_429 (st : PState) (e : Env) (p95 : ℚ) (replicas : ℤ) :
    (winCallLlm st e p95 replicas = true → e.now ≥ st.backoff_until) ∧
    (∀ ra, winCallLlm st e p95 replicas = true →
      e.oracle = OracleResp.http429 ra →
      (plannerStepParsed st e p95 replicas).1.backoff_until =
          e.now + min (ra.getD (LLM_BACKOFF_BASE_SEC * 2 ^ st.backoff_power))
            LLM_BACKOFF_MAX_SEC ∧
      (plannerStepParsed st e p95 replicas).1.backoff_power = min (st.backoff_power + 1) 4 ∧
      (winDecision0 st e p95 replicas).1 =
        { winHeur st p95 replicas with
            reason := (winHeur st p95 replicas).reason ++ (" (llm_fallback: llm_429)") }) ∧
    (∀ a r, winCallLlm st e p95 replicas = true →
      e.oracle = OracleResp.ok a r →
      (plannerStepParsed st e p95 replicas).1.backoff_power = 0 ∧
      (plannerStepParsed st e p95 replicas).1.last_llm_call = e.now) := by
  refine ⟨?_, ?_, ?_⟩
  · intro h
    have hg : winGatePre st e p95 replicas = true := by
      have := h
      simp only [winCallLlm, Bool.and_eq_true] at this
      exact this.1
    simp only [winGatePre, Bool.and_eq_true, decide_eq_true_eq] at hg
    exact hg.1.1.2
  · intro ra hc ho
    refine ⟨?_, ?_, ?_⟩ <;>
      simp [plannerStepParsed, winDecision0, hc, ho, handle429]
  · intro a r hc ho
    constructor <;> simp [plannerStepParsed, winDecision0, hc, ho]

/-- Witness for C6 (amended): the 429 at power 0 with no Retry-After yields
`until_ts = 100 + min(10·2⁰, 300)`, and a successful 2xx call resets the
power to 0 and stamps `last_llm_call = now`. -/
theorem backoff_429_witness :
    (plannerStepParsed wStOracle wEnv429 50 2).1.backoff_until =
      wEnv429.now + min ((none : Option ℚ).getD (LLM_BACKOFF_BASE_SEC * 2 ^ wStOracle.backoff_power))
        LLM_BACKOFF_MAX_SEC ∧
    (plannerStepParsed wStOracle wEnvOracleUp 50 10).1.backoff_power = 0 ∧
    (plannerStepParsed wStOracle wEnvOracleUp 50 10).1.last_llm_call = wEnvOracleUp.now :=
  ⟨((backoff_429 wStOracle wEnv429 50 2).2.1 none (by decide) rfl).1,
   ((backoff_429 wStOracle wEnvOracleUp 50 10).2.2 ("scale_up") ("") (by decide) rfl).1,
   ((backoff_429 wStOracle wEnvOracleUp 50 10).2.2 ("scale_up") ("") (by decide) rfl).2⟩

/-- Claim C7 counterexample: a `latency_metrics` window whose `p95_ms` is
null makes `float(...)` raise; the planner publishes the outer handler's
`{kind: "error", ...}` record — no `plan` record at all, hence no `noop`
decision is emitted for that window. -/
theorem error_record_cex :
    (plannerStep (initState 0) wEnvNoKey100 wMsgBadP95).2 =
      [OutMsg.err PyErr.p95Conv wMsgBadP95] ∧
    ((plannerStep (initState 0) wEnvNoKey100 wMsgBadP95).2.filter isPlanOut) = [] := by
  refine ⟨by decide, by decide⟩

/-- Claim C7 (amended): a window whose field conversion raises yields exactly
one published record, the outer handler's `{kind: "error", error, raw}`
record on `actions` — not a `PlanEnvelope` carrying a `noop` decision. -/
theorem error_record (st : PState) (e : Env) (msg : Msg)
    (hk : msg.kind = some ("latency_metrics")) :
    (pyFloat? msg.p95_ms = none →
      (plannerStep st e msg).2 = [OutMsg.err PyErr.p95Conv msg]) ∧
    (∀ p95, pyFloat? msg.p95_ms = some p95 → pyInt? msg.replicas = none →
      (plannerStep st e msg).2 = [OutMsg.err PyErr.replicasConv msg]) := by
  constructor
  · intro hp
    simp [plannerStep, hk, hp]
  · intro p95 hp hr
    simp [plannerStep, hk, hp, hr]

/-- Witness for C7 (amended): the replicas-conversion failure also produces
the error record (after mutating only `p95_hist`, as the source does). -/
theorem error_record_witness :
    (plannerStep (initState 0) wEnvNoKey100 wMsgBadReplicas).2 =
      [OutMsg.err PyErr.replicasConv wMsgBadReplicas] :=
  (error_record (initState 0) wEnvNoKey100 wMsgBadReplicas rfl).2 50 rfl rfl

/-- Claim C8: if the target container exists but its labels do not map
`agentic.target` to `"true"`, the executor publishes exactly one `results`
record — `status = skipped`, reason `"target not labeled
agentic.target=true"` — and performs no runtime-mutating call. -/
theorem executor_optin (ds : DockerState) (epoch : ℤ) (msg : ExecMsg) (tc : Container)
    (hk : msg.kind = some ("plan"))
    (hfind : ds.containers.find? (fun c => c.name == msg.decision.target) = some tc)
    (hlab : tc.labels.lookup ("agentic.target") ≠ some ("true")) :
    executorStep ds epoch msg =
      ([{ action := ("noop"), target := msg.decision.target,
          reason := ("target not labeled agentic.target=true"),
          status := ("skipped"), message := ("") }], []) := by
  simp [executorStep, hk, hfind, hlab]

/-- Witness for C8: a `scale_up` plan aimed at an existing but unlabeled
`app` container is skipped with no runtime call. -/
theorem executor_optin_witness :
    executorStep wDocker 0 wPlanUp =
      ([{ action := ("noop"), target := ("app"),
          reason := ("target not labeled agentic.target=true"),
          status := ("skipped"), message := ("") }], []) :=
  executor_optin wDocker 0 wPlanUp wUnlabeled rfl (by decide) (by decide)

/-- Claim C9 counterexample: the name `app-dup-x` is counted as a replica by
the probe's prefix test but rejected by the executor's `^app-dup-\d+$` rule —
the two predicates are not equivalent. -/
theorem replica_pred_cex :
    probeReplicaName ("app-dup-x") = true ∧
    executorReplicaName ("app") ("app-dup-x") = false := by
  refine ⟨by decide, by decide⟩

/-- Claim C9 (amended): the executor's classification implies the probe's
(every `^app-dup-\d+$` sibling also passes the prefix test) but not
conversely; moreover the populations differ — the probe counts only running
containers and floors its count at 1. -/
theorem replica_pred_inclusion (name : String) (ds : DockerState) :
    (executorReplicaName ("app") name = true → probeReplicaName name = true) ∧
    1 ≤ probeCountReplicas ds := by
  constructor
  · intro h
    rw [executorReplicaName, Bool.or_eq_true] at h
    rcases h with h | h
    · rw [probeReplicaName, Bool.or_eq_true]
      exact Or.inl h
    · rw [probeReplicaName, Bool.or_eq_true]
      refine Or.inr ?_
      rw [siblingMatch] at h
      have hpre : sibPat ("app") = (("app-dup-").data) := by decide
      rw [hpre] at h
      cases hdp : dropPre (("app-dup-").data) name.data with
      | none => rw [hdp] at h; exact absurd h (by decide)
      | some rest => rw [startsWithChars, hdp]; rfl
  · rw [probeCountReplicas]
    exact Nat.le_max_right _ 1

/-- Witness for C9 (amended): a genuine sibling name is accepted by both
predicates, and the probe's count on the concrete one-container runtime is
at least 1. -/
theorem replica_pred_inclusion_witness :
    probeReplicaName ("app-dup-1712000000") = true ∧ 1 ≤ probeCountReplicas wDocker :=
  ⟨(replica_pred_inclusion ("app-dup-1712000000") wDocker).1 (by decide),
   (replica_pred_inclusion ("app-dup-1712000000") wDocker).2⟩

/-- Claim C10: the token bucket starts full at `LLM_RPM`, refill and take
keep `0 ≤ tokens ≤ LLM_RPM` (given monotone wall clock), and a window
refused by any earlier short-circuited gate (no API key, still in backoff,
neither band change nor heartbeat, cooldown not clear) leaves the bucket —
tokens and refill timestamp — completely untouched. -/
theorem token_bucket_inv :
    (∀ t0 : ℚ, (initState t0).bucket_tokens = LLM_RPM) ∧
    (∀ tokens updated now : ℚ, 0 ≤ tokens → tokens ≤ LLM_RPM → updated ≤ now →
      (0 ≤ (refillBucket tokens updated now).1 ∧ (refillBucket tokens updated now).1 ≤ LLM_RPM) ∧
      (0 ≤ (takeToken tokens updated now).2.1 ∧ (takeToken tokens updated now).2.1 ≤ LLM_RPM)) ∧
    (∀ (st : PState) (e : Env) (p95 : ℚ) (replicas : ℤ),
      (e.hasKey = false ∨ e.now < st.backoff_until
        ∨ (winChanged st p95 replicas = false ∧ winHeartbeat st e = false)
        ∨ e.now - st.last_action_ts < COOLDOWN_SEC) →
      winGatePre st e p95 replicas = false) ∧
    (∀ (st : PState) (e : Env) (p95 : ℚ) (replicas : ℤ),
      winGatePre st e p95 replicas = false →
      (plannerStepParsed st e p95 replicas).1.bucket_tokens = st.bucket_tokens ∧
      (plannerStepParsed st e p95 replicas).1.bucket_updated = st.bucket_updated) := by
  refine ⟨fun _ => rfl, ?_, ?_, ?_⟩
  · intro tokens updated now h0 h1 h2
    have hd : (0 : ℚ) ≤ (now - updated) / 60 := by
      apply div_nonneg
      · linarith
      · norm_num
    have hmul : (0 : ℚ) ≤ LLM_RPM * ((now - updated) / 60) := by
      apply mul_nonneg
      · norm_num [LLM_RPM]
      · exact hd
    have hr0 : 0 ≤ (refillBucket tokens updated now).1 := by
      rw [refillBucket]
      refine le_min ?_ ?_
      · norm_num [LLM_RPM]
      · linarith
    have hr1 : (refillBucket tokens updated now).1 ≤ LLM_RPM := by
      rw [refillBucket]
      exact min_le_left _ _
    refine ⟨⟨hr0, hr1⟩, ?_, ?_⟩
    · by_cases hge : (refillBucket tokens updated now).1 ≥ 1
      · rw [takeToken, if_pos hge]
        show (0 : ℚ) ≤ (refillBucket tokens updated now).1 - 1
        linarith
      · rw [takeToken, if_neg hge]
        exact hr0
    · by_cases hge : (refillBucket tokens updated now).1 ≥ 1
      · rw [takeToken, if_pos hge]
        show (refillBucket tokens updated now).1 - 1 ≤ LLM_RPM
        have : (0 : ℚ) ≤ LLM_RPM := by norm_num [LLM_RPM]
        linarith
      · rw [takeToken, if_neg hge]
        exact hr1
  · intro st e p95 replicas h
    rcases h with h | h | h | h
    · simp [winGatePre, h]
    · have hnb : ¬(e.now ≥ st.backoff_until) := not_le.mpr h
      simp [winGatePre, hnb]
    · simp [winGatePre, h.1, h.2]
    · have hnc : winCooldownOk st e = false := by
        simp only [winCooldownOk, decide_eq_false_iff_not]
        exact not_le.mpr h
      simp [winGatePre, hnc]
  · intro st e p95 replicas h
    constructor <;> simp [plannerStepParsed, winBucket, h]

/-- Witness for C10: a take at a later clock stays within bounds, and a
keyless window leaves the bucket of `wStOracle` untouched. -/
theorem token_bucket_inv_witness :
    (0 ≤ (takeToken 2 0 30).2.1 ∧ (takeToken 2 0 30).2.1 ≤ LLM_RPM) ∧
    winGatePre wStOracle wEnvNoKey100 50 2 = false ∧
    (plannerStepParsed wStOracle wEnvNoKey100 50 2).1.bucket_tokens =
      wStOracle.bucket_tokens :=
  ⟨(token_bucket_inv.2.1 2 0 30 (by decide) (by decide) (by decide)).2,
   token_bucket_inv.2.2.1 wStOracle wEnvNoKey100 50 2 (Or.inl rfl),
   (token_bucket_inv.2.2.2 wStOracle wEnvNoKey100 50 2
     (token_bucket_inv.2.2.1 wStOracle wEnvNoKey100 50 2 (Or.inl rfl))).1⟩

end Autoscaler
